import Mathlib

/-!
Verification of the faerie MUD-style world engine (Rust) against its
natural-language specification.

The engine state lives in `src/src/lib.rs`: a `GameMap` owning a
`HashMap<RoomName, Room>` and a `HashMap<UserName, User>`.  Hash maps are
embedded as association lists with insert-replaces-existing-key semantics
(`insertKey`) and first-match lookup (`lookupKey`); `HashSet<UserName>` is
embedded as a duplicate-free `List String` (`setInsert` / `setRemove`).
Rust panics (`assert!` / `.expect`) abort the operation; each stateful
operation therefore returns the state as mutated up to the panic point
together with `Option String` carrying the panic message (`none` = normal
completion), so that partially-applied mutations before a panic stay
observable, exactly as they do to a caller owning the `GameMap`.
Guard closures (`RoomPassFunc`) are embedded as pure per-call functions
`User → User × Except String (Option String)`: the returned user is the
mutated actor, `Except.error` is a deny with reason, `Except.ok` an allow
with optional message.  `i32` arithmetic uses `Int` with an explicit
wrap into `[-2^31, 2^31)` where the code subtracts.
-/

namespace faerie

/-- First-match lookup in an association list (embedding of `HashMap::get`). -/
def lookupKey {α : Type} (l : List (String × α)) (k : String) : Option α :=
  match l with
  | [] => none
  | (k0, v0) :: rest => if k0 = k then some v0 else lookupKey rest k

/-- Key membership (embedding of `HashMap::contains_key`). -/
def containsKey {α : Type} (l : List (String × α)) (k : String) : Bool :=
  (lookupKey l k).isSome

/-- Insert that replaces an existing binding of the key, else appends
(embedding of `HashMap::insert`). -/
def insertKey {α : Type} (l : List (String × α)) (k : String) (v : α) :
    List (String × α) :=
  match l with
  | [] => [(k, v)]
  | (k0, v0) :: rest =>
    if k0 = k then (k, v) :: rest else (k0, v0) :: insertKey rest k v

/-- Number of bindings of key `k` present in the list. -/
def countKey {α : Type} (l : List (String × α)) (k : String) : Nat :=
  (l.filter (fun p => p.1 == k)).length

/-- Embedding of `HashSet::insert`. -/
def setInsert (l : List String) (k : String) : List String :=
  if l.contains k then l else l ++ [k]

/-- Embedding of `HashSet::take` (removal of the element). -/
def setRemove (l : List String) (k : String) : List String :=
  l.filter (fun x => x ≠ k)

/-- `i32` wraparound: normalize an integer into `[-2^31, 2^31)`. -/
def wrap32 (x : Int) : Int :=
  (x + 2 ^ 31) % 2 ^ 32 - 2 ^ 31

/-- `UserType` from `src/src/lib.rs` / `src/src/user.rs`. -/
inductive UserType where
  | Civilian
  | Viking
  | ElfLord
deriving DecidableEq, Repr

/-- `BasicAttributes` (`hp`/`mp` are Rust `i32`, embedded as `Int`). -/
structure BasicAttributes where
  hp : Int
  mp : Int
deriving DecidableEq, Repr

/-- `BasicAttributes::default` from `src/src/lib.rs`. -/
def BasicAttributes.default (user_type : UserType) : BasicAttributes :=
  match user_type with
  | UserType.Civilian => { hp := 20, mp := 7 }
  | UserType.Viking => { hp := 220, mp := 9 }
  | UserType.ElfLord => { hp := 80, mp := 28 }

/-- `SpecialAttributes` from `src/src/lib.rs`. -/
inductive SpecialAttributes where
  | Civilian (needlessly_chatter : Nat)
  | Viking (brutish_swing : Nat)
  | ElfLord (fuck_infusion : Nat)
deriving DecidableEq, Repr

/-- `SpecialAttributes::default` from `src/src/lib.rs`. -/
def SpecialAttributes.default (user_type : UserType) : SpecialAttributes :=
  match user_type with
  | UserType.Civilian => SpecialAttributes.Civilian 20
  | UserType.Viking => SpecialAttributes.Viking 2
  | UserType.ElfLord => SpecialAttributes.ElfLord 3

/-- `User` from `src/src/lib.rs`. -/
structure User where
  name : String
  room_name : String
  basic_attributes : BasicAttributes
  special_attributes : SpecialAttributes
deriving DecidableEq, Repr

/-- `User::new` (asserts the name is non-empty; `Except.error` is the panic). -/
def User.new (name : String) (starting_room_name : String) (user_type : UserType) :
    Except String User :=
  if name = "" then Except.error "Empty user names are not allowed!"
  else Except.ok
    { name := name
      room_name := starting_room_name
      basic_attributes := BasicAttributes.default user_type
      special_attributes := SpecialAttributes.default user_type }

/-- Guard/exit-condition type: embedding of
`Option<Box<dyn FnMut(&mut User) -> Result<Option<String>, String>>>`
(one invocation; the returned `User` is the actor as mutated by the guard). -/
def RoomPassFunc : Type :=
  Option (User → User × Except String (Option String))

/-- `Path` from `src/src/lib.rs`. -/
structure Path where
  target_room_name : String
  path_name : String
  exit_cond : RoomPassFunc

/-- `PathType` from `src/src/lib.rs`. -/
inductive PathType where
  | Normal
  | Painful
  | Custom (exit_cond : RoomPassFunc)

/-- The closure built by `Path::new_painful` in `src/src/lib.rs`:
`hp -= 1` then `Ok(Some("You passed through, but it hurt you."))`. -/
def painful_exit_cond : User → User × Except String (Option String) :=
  fun user =>
    ({ user with
        basic_attributes :=
          { user.basic_attributes with
              hp := wrap32 (user.basic_attributes.hp - 1) } },
     Except.ok (some "You passed through, but it hurt you."))

/-- `Path::new_painful` from `src/src/lib.rs`. -/
def Path.new_painful (target_room_name : String) (path_name : String) : Path :=
  { target_room_name := target_room_name
    path_name := path_name
    exit_cond := some painful_exit_cond }

/-- `Path::new` (asserts the path name is non-empty). -/
def Path.new (target_room_name : String) (path_name : String) (path_type : PathType) :
    Except String Path :=
  if path_name = "" then Except.error "Empty path names are not allowed!"
  else
    match path_type with
    | PathType.Normal =>
      Except.ok { target_room_name := target_room_name, path_name := path_name,
                  exit_cond := none }
    | PathType.Painful => Except.ok (Path.new_painful target_room_name path_name)
    | PathType.Custom exit_cond =>
      Except.ok { target_room_name := target_room_name, path_name := path_name,
                  exit_cond := exit_cond }

/-- `Path::match_basic_aliases` from `src/src/lib.rs` (also `src/src/room.rs`). -/
def Path.match_basic_aliases (s : String) : String :=
  if s = "n" then "north"
  else if s = "s" then "south"
  else if s = "w" then "west"
  else if s = "e" then "east"
  else if s = "ne" then "northeast"
  else if s = "se" then "southeast"
  else if s = "nw" then "northwest"
  else if s = "sw" then "southwest"
  else s

/-- `Room` from `src/src/lib.rs` (`exits` is the edge table, `users` the
occupant set). -/
structure Room where
  name : String
  description : String
  exits : List (String × Path)
  users : List String

/-- `Room::new` (asserts name and description non-empty). -/
def Room.new (name : String) (description : String) : Except String Room :=
  if name = "" then Except.error "Empty room names are not allowed!"
  else if description = "" then Except.error "Empty room descriptions are not allowed!"
  else Except.ok { name := name, description := description, exits := [], users := [] }

/-- `Room::add_exit` from `src/src/lib.rs` lines 387-394: builds a
`PathType::Normal` path and inserts it, with no duplicate check
(`HashMap::insert` replaces any existing binding). -/
def Room.add_exit (r : Room) (target_room_name : String) (path_name : String) :
    Except String Room :=
  match Path.new target_room_name path_name PathType.Normal with
  | Except.error m => Except.error m
  | Except.ok path => Except.ok { r with exits := insertKey r.exits path_name path }

/-- `Room::add_user` from `src/src/lib.rs`. -/
def Room.add_user (r : Room) (name : String) : Room :=
  { r with users := setInsert r.users name }

/-- `Direction` from `src/src/lib.rs` / `src/src/room.rs`. -/
inductive Direction where
  | North
  | East
  | South
  | West
  | NorthEast
  | SouthEast
  | SouthWest
  | NorthWest
  | CustomOneWay (start : String)
  | Custom (start : String) (stop : String)
deriving DecidableEq, Repr

/-- `Direction::get_path_name`. -/
def Direction.get_path_name (dir : Direction) : String :=
  match dir with
  | Direction.North => "north"
  | Direction.South => "south"
  | Direction.East => "east"
  | Direction.West => "west"
  | Direction.NorthEast => "northeast"
  | Direction.SouthEast => "southeast"
  | Direction.SouthWest => "southwest"
  | Direction.NorthWest => "northwest"
  | Direction.CustomOneWay start => start
  | Direction.Custom start _ => start

/-- `Direction::get_reverse`. -/
def Direction.get_reverse (dir : Direction) : Option Direction :=
  match dir with
  | Direction.North => some Direction.South
  | Direction.South => some Direction.North
  | Direction.East => some Direction.West
  | Direction.West => some Direction.East
  | Direction.NorthEast => some Direction.SouthWest
  | Direction.SouthEast => some Direction.NorthWest
  | Direction.SouthWest => some Direction.NorthEast
  | Direction.NorthWest => some Direction.SouthEast
  | Direction.CustomOneWay _ => none
  | Direction.Custom start stop => some (Direction.Custom stop start)

/-- `GameMap` from `src/src/lib.rs`: the room table and the user table. -/
structure GameMap where
  rooms : List (String × Room)
  users : List (String × User)

/-- `GameMap::new`. -/
def GameMap.new : GameMap :=
  { rooms := [], users := [] }

/-- Outcome of `attempt_move_impl`: a Rust panic, an `UnsuccessfulMove`
carrying its message, or a `SuccessfulMove` carrying its messages. -/
inductive MoveOutcome where
  | panic (msg : String)
  | failure (msg : String)
  | success (messages : List String)
deriving DecidableEq, Repr

/-- `GameMap::create_empty_room` from `src/src/lib.rs` lines 221-225:
`Room::new` (may panic) then a bare `HashMap::insert`. -/
def GameMap.create_empty_room (g : GameMap) (name : String) (desc : String) :
    GameMap × Option String :=
  match Room.new name desc with
  | Except.error m => (g, some m)
  | Except.ok room => ({ g with rooms := insertKey g.rooms name room }, none)

/-- `GameMap::add_path_impl` from `src/src/lib.rs` lines 240-250:
`check_room_exists(target)` (panic "No room named .. exists!"), then
`get_room_mut(source)` (panic "Failed to find room named .. for mutation!"),
then `Room::add_exit` under `Direction::get_path_name`. -/
def GameMap.add_path_impl (g : GameMap) (source_room_name : String)
    (target_room_name : String) (direction : Direction) : GameMap × Option String :=
  if containsKey g.rooms target_room_name then
    match lookupKey g.rooms source_room_name with
    | none =>
      (g, some ("Failed to find room named " ++ source_room_name ++ " for mutation!"))
    | some source_room =>
      match Room.add_exit source_room target_room_name
          (Direction.get_path_name direction) with
      | Except.error m => (g, some m)
      | Except.ok room2 =>
        ({ g with rooms := insertKey g.rooms source_room_name room2 }, none)
  else (g, some ("No room named " ++ target_room_name ++ " exists!"))

/-- `GameMap::add_path` from `src/src/lib.rs` lines 227-238: forward edge,
then (when the direction has a reverse) the symmetric reverse edge. -/
def GameMap.add_path (g : GameMap) (source_room_name : String)
    (target_room_name : String) (direction : Direction) : GameMap × Option String :=
  match g.add_path_impl source_room_name target_room_name direction with
  | (g2, some m) => (g2, some m)
  | (g2, none) =>
    match Direction.get_reverse direction with
    | none => (g2, none)
    | some d => g2.add_path_impl target_room_name source_room_name d

/-- `GameMap::create_user_in_room` from `src/src/lib.rs` lines 277-288:
`User::new` (panics on an empty name, before any mutation), then the user
is inserted into the user table, and only then `get_room_mut(room_name)`
(panic "Failed to find room named .. for mutation!") and `Room::add_user`. -/
def GameMap.create_user_in_room (g : GameMap) (user_name : String)
    (room_name : String) (user_type : UserType) : GameMap × Option String :=
  match User.new user_name room_name user_type with
  | Except.error m => (g, some m)
  | Except.ok user =>
    let g1 : GameMap := { g with users := insertKey g.users user_name user }
    match lookupKey g1.rooms room_name with
    | none => (g1, some ("Failed to find room named " ++ room_name ++ " for mutation!"))
    | some room =>
      ({ g1 with rooms := insertKey g1.rooms room_name (room.add_user user_name) },
       none)

/-- The commit step of `attempt_move_impl` (`src/src/lib.rs` lines 351-361):
insert the user into the occupant set of the target room, update the
`room_name` of the user, then remove the user from the room re-fetched under the
pre-move room name. -/
def GameMap.attempt_move_commit (g : GameMap) (user_name : String)
    (room_name : String) (target_room_name : String) (messages : List String) :
    GameMap × MoveOutcome :=
  match lookupKey g.rooms target_room_name with
  | none =>
    (g, MoveOutcome.panic ("Failed to find room named " ++ target_room_name ++
      " for mutation!"))
  | some target_room =>
    let target_room2 : Room :=
      { target_room with users := setInsert target_room.users user_name }
    let g2 : GameMap := { g with rooms := insertKey g.rooms target_room_name target_room2 }
    match lookupKey g2.users user_name with
    | none =>
      (g2, MoveOutcome.panic ("Failed to find user named " ++ user_name ++
        " for mutation!"))
    | some user =>
      let user2 : User := { user with room_name := target_room_name }
      let g3 : GameMap := { g2 with users := insertKey g2.users user_name user2 }
      match lookupKey g3.rooms room_name with
      | none =>
        (g3, MoveOutcome.panic ("Failed to find room named " ++ room_name ++
          " for mutation!"))
      | some source_room =>
        let source_room2 : Room :=
          { source_room with users := setRemove source_room.users user_name }
        ({ g3 with rooms := insertKey g3.rooms room_name source_room2 },
         MoveOutcome.success messages)

/-- `GameMap::attempt_move_impl` from `src/src/lib.rs` lines 307-362:
alias normalization, silent failure on an empty normalized name, user and
room lookup (panics if missing), edge lookup (failure message on a miss),
optional guard invocation (the mutated user is stored back in the user
table whether the guard allows or denies), then the commit step. -/
def GameMap.attempt_move_impl (g : GameMap) (user_name : String)
    (possible_path_name : String) : GameMap × MoveOutcome :=
  let pname := Path.match_basic_aliases possible_path_name
  if pname = "" then (g, MoveOutcome.failure "")
  else
    match lookupKey g.users user_name with
    | none => (g, MoveOutcome.panic ("Failed to find user named " ++ user_name ++ "!"))
    | some user =>
      match lookupKey g.rooms user.room_name with
      | none => (g, MoveOutcome.panic ("No room named " ++ user.room_name ++ " exists!"))
      | some room =>
        match lookupKey room.exits pname with
        | none =>
          (g, MoveOutcome.failure ("What? There\x27s no direction " ++ pname ++
            " from " ++ user.room_name ++ "."))
        | some path =>
          match path.exit_cond with
          | none =>
            g.attempt_move_commit user_name user.room_name path.target_room_name []
          | some exit_lambda =>
            match exit_lambda user with
            | (user2, Except.error msg) =>
              ({ g with users := insertKey g.users user_name user2 },
               MoveOutcome.failure msg)
            | (user2, Except.ok optMsg) =>
              GameMap.attempt_move_commit
                ({ g with users := insertKey g.users user_name user2 })
                user_name user.room_name path.target_room_name optMsg.toList

/-- `ActionSuccess` from `src/src/lambda.rs`. -/
structure ActionSuccess where
  messages : List String
  room_move : Bool

/-- `ActionSuccess::new` from `src/src/lambda.rs`. -/
def ActionSuccess.new (messages : List String) : ActionSuccess :=
  { messages := messages, room_move := false }

/-- `ActionFailure` from `src/src/lambda.rs`. -/
structure ActionFailure where
  messages : List String

/-- `ActionFunc<T>` from `src/src/lambda.rs`, embedded as a pure per-call
function. -/
def ActionFunc (T : Type) : Type :=
  Option (T → T × Except ActionFailure ActionSuccess)

/-- `Path` from `src/src/room.rs` (the refactored module; its guard type is
`ActionFunc<User>`). -/
structure room.Path where
  target_room_name : String
  path_name : String
  exit_cond : ActionFunc User

/-- `PathType` from `src/src/room.rs`. -/
inductive room.PathType where
  | Normal
  | Painful
  | Custom (exit_cond : ActionFunc User)

/-- `Path::new_painful` from `src/src/room.rs` lines 87-100. -/
def room.Path.new_painful (target_room_name : String) (path_name : String) :
    room.Path :=
  { target_room_name := target_room_name
    path_name := path_name
    exit_cond := some (fun user =>
      ({ user with
          basic_attributes :=
            { user.basic_attributes with
                hp := wrap32 (user.basic_attributes.hp - 1) } },
       Except.ok (ActionSuccess.new ["You passed through, but it hurt you."]))) }

/-- `Path::new` from `src/src/room.rs` (asserts the path name is non-empty). -/
def room.Path.new (target_room_name : String) (path_name : String)
    (path_type : room.PathType) : Except String room.Path :=
  if path_name = "" then Except.error "Empty path names are not allowed!"
  else
    match path_type with
    | room.PathType.Normal =>
      Except.ok { target_room_name := target_room_name, path_name := path_name,
                  exit_cond := none }
    | room.PathType.Painful =>
      Except.ok (room.Path.new_painful target_room_name path_name)
    | room.PathType.Custom exit_cond =>
      Except.ok { target_room_name := target_room_name, path_name := path_name,
                  exit_cond := exit_cond }

/-- `Room` from `src/src/room.rs` (edge table field is called `paths`). -/
structure room.Room where
  name : String
  description : String
  paths : List (String × room.Path)
  users : List String

/-- `Room::check_duplicate_path` from `src/src/room.rs` lines 49-54: asserts
that no path with this name exists yet; `some` carries the panic message. -/
def room.Room.check_duplicate_path (r : room.Room) (path_name : String) :
    Option String :=
  if containsKey r.paths path_name then
    some ("Path \x27" ++ path_name ++ "\x27 from " ++ r.name ++ " already exists!")
  else none

/-- `Room::add_path` from `src/src/room.rs` lines 29-37: duplicate check
first (panic leaves the room untouched), then `Path::new` and the insert. -/
def room.Room.add_path (r : room.Room) (target_room_name : String)
    (path_name : String) : Except String room.Room :=
  match r.check_duplicate_path path_name with
  | some m => Except.error m
  | none =>
    match room.Path.new target_room_name path_name room.PathType.Normal with
    | Except.error m => Except.error m
    | Except.ok path => Except.ok { r with paths := insertKey r.paths path_name path }

/-- Modelled from the spec: the `GameState` global-action registry is not
under `src/` (`main.rs` consumes `faerie::GameState`, whose source file is
absent; `lib.rs` holds the earlier `GameMap` without global actions).  Per
spec sections 4.4 and 6, the `list_users` handler returns the header
"Users online:" followed by one "* <name>" line per known actor in the
user table, order as stored. -/
def GameMap.list_users (g : GameMap) : List String :=
  "Users online:" :: g.users.map (fun p => "* " ++ p.2.name)

/-- Modelled from the spec: the classification step of the dispatch
pipeline (spec section 4.3 step 1) is part of the absent `GameState`; a
recognized global-action keyword dispatches directly to its handler with
no movement attempt and a not-a-room-move outcome, anything else is a
movement attempt, marked as a room move exactly when it succeeds. -/
def GameMap.process_input (g : GameMap) (user_name : String) (input : String) :
    GameMap × MoveOutcome × Bool :=
  if input = "list_users" then (g, MoveOutcome.success g.list_users, false)
  else
    match g.attempt_move_impl user_name input with
    | (g2, MoveOutcome.success msgs) => (g2, MoveOutcome.success msgs, true)
    | (g2, out) => (g2, out, false)

/-- Civilian user record as created by `User::new`, for concrete scenarios. -/
def mkCivilian (name : String) (room_name : String) : User :=
  { name := name, room_name := room_name
    basic_attributes := BasicAttributes.default UserType.Civilian
    special_attributes := SpecialAttributes.default UserType.Civilian }

/-- C4 scenario: a room that already has a path named "north". -/
def C4room : room.Room :=
  { name := "room1", description := "blah"
    paths := [("north", { target_room_name := "room2", path_name := "north",
                          exit_cond := none })]
    users := [] }

/-- C5 scenario: a world with one room and one user already stored. -/
def C5g : GameMap :=
  { rooms := [("Dooklandia", { name := "Dooklandia", description := "first",
                               exits := [], users := ["glenn"] })]
    users := [("glenn", mkCivilian "glenn" "Dooklandia")] }

/-- C6 scenario: a user in a room that has no exits. -/
def C6g : GameMap :=
  { rooms := [("room1", { name := "room1", description := "blah", exits := [],
                          users := ["user1"] })]
    users := [("user1", mkCivilian "user1" "room1")] }

/-- C1 scenario, step 1: create room "roomA". -/
def C1g1 : GameMap := (GameMap.new.create_empty_room "roomA" "a cozy room").1

/-- C1 scenario, step 2: a two-way self-loop path on "roomA". -/
def C1g2 : GameMap := (C1g1.add_path "roomA" "roomA" Direction.North).1

/-- C1 scenario, step 3: create "user1" inside "roomA". -/
def C1g3 : GameMap :=
  (C1g2.create_user_in_room "user1" "roomA" UserType.Civilian).1

/-- C1 scenario, step 4: walk the self-loop. -/
def C1res : GameMap × MoveOutcome := C1g3.attempt_move_impl "user1" "north"

/-- C2 scenario: two rooms with no paths yet. -/
def C2g : GameMap :=
  { rooms := [("roomA", { name := "roomA", description := "a", exits := [],
                          users := [] }),
              ("roomB", { name := "roomB", description := "b", exits := [],
                          users := [] })]
    users := [] }

/-- C3 scenario: a guard that mutates the hp of the actor to 5 and then denies. -/
def C3deny : User → User × Except String (Option String) :=
  fun u =>
    ({ u with basic_attributes := { u.basic_attributes with hp := 5 } },
     Except.error "You shall not pass.")

/-- C3 scenario: the guarded path. -/
def C3path : Path :=
  { target_room_name := "room2", path_name := "door", exit_cond := some C3deny }

/-- C3 scenario: two rooms joined by the denying door, user in the first. -/
def C3g : GameMap :=
  { rooms := [("room1", { name := "room1", description := "blah",
                          exits := [("door", C3path)], users := ["user1"] }),
              ("room2", { name := "room2", description := "dang", exits := [],
                          users := [] })]
    users := [("user1", mkCivilian "user1" "room1")] }

/-- C8 scenario: the painful path. -/
def C8path : Path :=
  { target_room_name := "room2", path_name := "spikes",
    exit_cond := some painful_exit_cond }

/-- C8 scenario: two rooms joined by the painful path, user in the first. -/
def C8g : GameMap :=
  { rooms := [("room1", { name := "room1", description := "ouchy",
                          exits := [("spikes", C8path)], users := ["user1"] }),
              ("room2", { name := "room2", description := "safe", exits := [],
                          users := [] })]
    users := [("user1", mkCivilian "user1" "room1")] }

/-- C10 scenario: a world with one room, no users. -/
def C10g : GameMap :=
  { rooms := [("Dooklandia", { name := "Dooklandia",
                               description := "Big ol description", exits := [],
                               users := [] })]
    users := [] }

/-- Looking a key up right after inserting it finds the inserted value. -/
theorem lookupKey_insertKey_self {α : Type} (l : List (String × α)) (k : String)
    (v : α) : lookupKey (insertKey l k v) k = some v := by
  induction l with
  | nil => simp [insertKey, lookupKey]
  | cons hd tl ih =>
    obtain ⟨k0, v0⟩ := hd
    by_cases h : k0 = k
    · simp [insertKey, h, lookupKey]
    · simp [insertKey, h, lookupKey, ih]

/-- Inserting at one key leaves lookups at any other key unchanged. -/
theorem lookupKey_insertKey_ne {α : Type} (l : List (String × α)) (k k2 : String)
    (v : α) (h : k2 ≠ k) : lookupKey (insertKey l k v) k2 = lookupKey l k2 := by
  have h2 : ¬(k = k2) := fun hx => h (Eq.symm hx)
  induction l with
  | nil => simp [insertKey, lookupKey, h2]
  | cons hd tl ih =>
    obtain ⟨k0, v0⟩ := hd
    by_cases h0 : k0 = k
    · subst h0
      simp [insertKey, lookupKey, h2]
    · simp only [insertKey, if_neg h0, lookupKey]
      by_cases h3 : k0 = k2
      · simp [h3]
      · simp [h3, ih]

/-- A key absent from the key column of an association list looks up to
`none`. -/
theorem lookupKey_eq_none {α : Type} (l : List (String × α)) (k : String)
    (h : k ∉ l.map Prod.fst) : lookupKey l k = none := by
  induction l with
  | nil => rfl
  | cons hd tl ih =>
    obtain ⟨k0, v0⟩ := hd
    simp only [List.map_cons, List.mem_cons] at h
    push_neg at h
    rw [lookupKey, if_neg (fun hx => h.1 (Eq.symm hx))]
    exact ih h.2

/-- A key that looks up to `none` has count zero. -/
theorem countKey_eq_zero {α : Type} (l : List (String × α)) (k : String)
    (h : lookupKey l k = none) : countKey l k = 0 := by
  induction l with
  | nil => rfl
  | cons hd tl ih =>
    obtain ⟨k0, v0⟩ := hd
    by_cases h0 : k0 = k
    · simp [lookupKey, h0] at h
    · rw [lookupKey, if_neg h0] at h
      have h1 := ih h
      simp only [countKey, List.filter_cons] at h1 ⊢
      simp [h0, h1]

/-- On a list whose keys are duplicate-free, inserting a binding leaves
exactly one binding of that key. -/
theorem countKey_insertKey_self {α : Type} (l : List (String × α)) (k : String)
    (v : α) (hnd : (l.map Prod.fst).Nodup) : countKey (insertKey l k v) k = 1 := by
  induction l with
  | nil => simp [insertKey, countKey, List.filter_cons]
  | cons hd tl ih =>
    obtain ⟨k0, v0⟩ := hd
    simp only [List.map_cons, List.nodup_cons] at hnd
    by_cases h0 : k0 = k
    · have hrw : insertKey ((k0, v0) :: tl) k v = (k, v) :: tl := by
        simp [insertKey, h0]
      have hz : countKey tl k = 0 :=
        countKey_eq_zero tl k (lookupKey_eq_none tl k (h0 ▸ hnd.1))
      rw [hrw]
      simp only [countKey, List.filter_cons] at hz ⊢
      simp [hz]
    · have hrw : insertKey ((k0, v0) :: tl) k v = (k0, v0) :: insertKey tl k v := by
        simp [insertKey, h0]
      rw [hrw]
      have h1 := ih hnd.2
      simp only [countKey, List.filter_cons] at h1 ⊢
      simp [h0, h1]

/-- Integers already inside the `i32` range are fixed by `wrap32`. -/
theorem wrap32_eq_self (x : Int) (h1 : -(2 ^ 31) ≤ x) (h2 : x < 2 ^ 31) :
    wrap32 x = x := by
  unfold wrap32
  omega

/-- When the target room and the user exist and the pre-move room name is
bound, the commit step of a move succeeds and stores the user with its
`room_name` switched to the target room. -/
theorem attempt_move_commit_success (g : GameMap)
    (user_name room_name target : String) (msgs : List String)
    (troom sroom : Room) (user : User)
    (ht : lookupKey g.rooms target = some troom)
    (hu : lookupKey g.users user_name = some user)
    (hs : lookupKey g.rooms room_name = some sroom) :
    (g.attempt_move_commit user_name room_name target msgs).2 =
      MoveOutcome.success msgs ∧
    lookupKey (g.attempt_move_commit user_name room_name target msgs).1.users
        user_name =
      some { user with room_name := target } := by
  by_cases hrt : room_name = target
  · subst hrt
    simp [GameMap.attempt_move_commit, ht, hu, lookupKey_insertKey_self]
  · simp [GameMap.attempt_move_commit, ht, hu, lookupKey_insertKey_self,
      lookupKey_insertKey_ne _ _ _ _ hrt, hs]

/-- C7: for every user name and every input string whose alias
normalization is the empty string, `attempt_move_impl` returns an
immediate failure carrying an empty message, and the world state is
returned unchanged — no user or room lookup, edge lookup, guard
invocation, or occupancy/location mutation happens. -/
theorem C7_empty_input_silent_failure (g : GameMap) (user_name input : String)
    (h : Path.match_basic_aliases input = "") :
    g.attempt_move_impl user_name input = (g, MoveOutcome.failure "") := by
  simp [GameMap.attempt_move_impl, h]

/-- C7 witness: the empty input on a world that does not even contain the
user still fails silently with the state unchanged. -/
theorem C7_witness :
    GameMap.new.attempt_move_impl "ghost" "" = (GameMap.new, MoveOutcome.failure "") :=
  C7_empty_input_silent_failure GameMap.new "ghost" "" rfl

/-- C6: when the alias-normalized non-empty path name has no entry in the
edge table of the current room of the user, `attempt_move_impl` fails with
exactly the message "What? There\x27s no direction [name] from [room]." and the
world state is returned unchanged, so no location or occupant set moves. -/
theorem C6_unknown_direction_failure (g : GameMap) (user_name input : String)
    (user : User) (r : Room)
    (hu : lookupKey g.users user_name = some user)
    (hr : lookupKey g.rooms user.room_name = some r)
    (hne : Path.match_basic_aliases input ≠ "")
    (hmiss : lookupKey r.exits (Path.match_basic_aliases input) = none) :
    g.attempt_move_impl user_name input =
      (g, MoveOutcome.failure ("What? There\x27s no direction " ++
        Path.match_basic_aliases input ++ " from " ++ user.room_name ++ ".")) := by
  simp [GameMap.attempt_move_impl, hne, hu, hr, hmiss]

/-- C6 witness: the unrecognized direction "northhampton" from a room with
no exits produces the explanatory failure and leaves the state unchanged. -/
theorem C6_witness :
    C6g.attempt_move_impl "user1" "northhampton" =
      (C6g, MoveOutcome.failure
        "What? There\x27s no direction northhampton from room1.") :=
  C6_unknown_direction_failure C6g "user1" "northhampton"
    (mkCivilian "user1" "room1")
    { name := "room1", description := "blah", exits := [], users := ["user1"] }
    rfl rfl (by decide) rfl

/-- C10: calling `create_user_in_room` with a non-empty user name and a
room name absent from the room table panics with the missing-room message,
but only after the new user has been inserted into the user table with its
`room_name` set to the nonexistent room; the insertion is not undone. -/
theorem C10_create_user_nonatomic (g : GameMap) (user_name room_name : String)
    (t : UserType) (hu : user_name ≠ "")
    (hr : lookupKey g.rooms room_name = none) :
    g.create_user_in_room user_name room_name t =
      ({ g with users := (insertKey g.users user_name
          ⟨user_name, room_name, BasicAttributes.default t,
           SpecialAttributes.default t⟩) },
       some ("Failed to find room named " ++ room_name ++ " for mutation!")) := by
  simp [GameMap.create_user_in_room, User.new, hu, hr]

/-- C10 witness: creating "Freddie" in the nonexistent room "FAKEFRIENDS"
panics, yet the user table now holds Freddie pointing at "FAKEFRIENDS". -/
theorem C10_witness :
    C10g.create_user_in_room "Freddie" "FAKEFRIENDS" UserType.Civilian =
      ({ C10g with users := (insertKey C10g.users "Freddie"
          ⟨"Freddie", "FAKEFRIENDS", BasicAttributes.default UserType.Civilian,
           SpecialAttributes.default UserType.Civilian⟩) },
       some "Failed to find room named FAKEFRIENDS for mutation!") :=
  C10_create_user_nonatomic C10g "Freddie" "FAKEFRIENDS" UserType.Civilian
    (by decide) rfl

/-- C4: on the refactored `Room` (`src/src/room.rs`), adding a path whose
name is already bound in the path table of the room fails fatally with the
duplicate-path message; the panic fires before the insert, so the room and
its original edge are untouched. -/
theorem C4_duplicate_path_rejected (r : room.Room) (target p : String)
    (orig : room.Path) (h : lookupKey r.paths p = some orig) :
    r.add_path target p =
      Except.error ("Path \x27" ++ p ++ "\x27 from " ++ r.name ++
        " already exists!") := by
  simp [room.Room.add_path, room.Room.check_duplicate_path, containsKey, h]

/-- C4 witness: adding a second "north" path to a room that has one is
rejected with the duplicate-path message. -/
theorem C4_witness :
    C4room.add_path "room3" "north" =
      Except.error "Path \x27north\x27 from room1 already exists!" :=
  C4_duplicate_path_rejected C4room "room3" "north"
    { target_room_name := "room2", path_name := "north", exit_cond := none } rfl

/-- C5 counterexample: `create_empty_room` on an already-used room id does
not fail — it completes with no panic and silently replaces the stored
room — and `create_user_in_room` on an already-used user id likewise
completes and replaces the stored user, contradicting the claimed fatal
duplicate-id rejection. -/
theorem C5_counterexample :
    ((C5g.create_empty_room "Dooklandia" "second").2 = none ∧
      lookupKey (C5g.create_empty_room "Dooklandia" "second").1.rooms
          "Dooklandia" =
        some { name := "Dooklandia", description := "second", exits := [],
               users := [] }) ∧
    ((C5g.create_user_in_room "glenn" "Dooklandia" UserType.Viking).2 = none ∧
      lookupKey (C5g.create_user_in_room "glenn" "Dooklandia"
          UserType.Viking).1.users "glenn" =
        some ⟨"glenn", "Dooklandia", BasicAttributes.default UserType.Viking,
              SpecialAttributes.default UserType.Viking⟩) :=
  ⟨⟨rfl, rfl⟩, ⟨rfl, rfl⟩⟩

/-- C5 amended: creating a room whose id already exists, or a user whose
id already exists, does not fail; the operation completes normally and the
new room/user silently replaces the previously stored one (the other
creation-time checks — non-empty names and, for users, an existing room —
still apply). -/
theorem C5_amended_duplicate_creation_replaces (g : GameMap)
    (name desc : String) (rOld : Room)
    (hname : name ≠ "") (hdesc : desc ≠ "")
    (hold : lookupKey g.rooms name = some rOld)
    (uname rname : String) (t : UserType) (uOld : User) (r2 : Room)
    (huname : uname ≠ "")
    (huold : lookupKey g.users uname = some uOld)
    (hroom : lookupKey g.rooms rname = some r2) :
    ((g.create_empty_room name desc).2 = none ∧
      lookupKey (g.create_empty_room name desc).1.rooms name =
        some { name := name, description := desc, exits := [], users := [] }) ∧
    ((g.create_user_in_room uname rname t).2 = none ∧
      lookupKey (g.create_user_in_room uname rname t).1.users uname =
        some ⟨uname, rname, BasicAttributes.default t,
              SpecialAttributes.default t⟩) := by
  refine ⟨⟨?_, ?_⟩, ?_, ?_⟩
  · simp [GameMap.create_empty_room, Room.new, hname, hdesc]
  · simp [GameMap.create_empty_room, Room.new, hname, hdesc,
      lookupKey_insertKey_self]
  · simp [GameMap.create_user_in_room, User.new, huname, hroom]
  · simp [GameMap.create_user_in_room, User.new, huname, hroom,
      lookupKey_insertKey_self]

/-- C5 amended witness: replacing the stored room "Dooklandia" and the
stored user "glenn" both complete without failure. -/
theorem C5_amended_witness :
    ((C5g.create_empty_room "Dooklandia" "second").2 = none ∧
      lookupKey (C5g.create_empty_room "Dooklandia" "second").1.rooms
          "Dooklandia" =
        some { name := "Dooklandia", description := "second", exits := [],
               users := [] }) ∧
    ((C5g.create_user_in_room "glenn" "Dooklandia" UserType.Viking).2 = none ∧
      lookupKey (C5g.create_user_in_room "glenn" "Dooklandia"
          UserType.Viking).1.users "glenn" =
        some ⟨"glenn", "Dooklandia", BasicAttributes.default UserType.Viking,
              SpecialAttributes.default UserType.Viking⟩) :=
  C5_amended_duplicate_creation_replaces C5g "Dooklandia" "second"
    { name := "Dooklandia", description := "first", exits := [],
      users := ["glenn"] }
    (by decide) (by decide) rfl "glenn" "Dooklandia" UserType.Viking
    (mkCivilian "glenn" "Dooklandia")
    { name := "Dooklandia", description := "first", exits := [],
      users := ["glenn"] }
    (by decide) rfl rfl

/-- C3: when the guard of the looked-up edge mutates the actor to `user2`
and denies with reason `msg`, the move fails with exactly that reason, the
room table (and so every occupant set) is unchanged, the user table keeps
exactly the mutations made by the guard (no rollback), and when the guard
left `room_name` alone the location of the actor is unchanged. -/
theorem C3_guard_deny_no_rollback (g : GameMap) (user_name input : String)
    (user user2 : User) (r : Room) (path : Path)
    (gd : User → User × Except String (Option String)) (msg : String)
    (hne : Path.match_basic_aliases input ≠ "")
    (hu : lookupKey g.users user_name = some user)
    (hr : lookupKey g.rooms user.room_name = some r)
    (hp : lookupKey r.exits (Path.match_basic_aliases input) = some path)
    (hg : path.exit_cond = some gd)
    (hden : gd user = (user2, Except.error msg)) :
    (g.attempt_move_impl user_name input).2 = MoveOutcome.failure msg ∧
    (g.attempt_move_impl user_name input).1.rooms = g.rooms ∧
    (g.attempt_move_impl user_name input).1.users =
      insertKey g.users user_name user2 ∧
    (user2.room_name = user.room_name →
      (lookupKey (g.attempt_move_impl user_name input).1.users user_name).map
          User.room_name = some user.room_name) := by
  have hres : g.attempt_move_impl user_name input =
      ({ g with users := insertKey g.users user_name user2 },
       MoveOutcome.failure msg) := by
    simp [GameMap.attempt_move_impl, hne, hu, hr, hp, hg, hden]
  rw [hres]
  refine ⟨rfl, rfl, rfl, ?_⟩
  intro h4
  simp [lookupKey_insertKey_self, h4]

/-- C3 witness: a guard that sets hp to 5 and denies leaves the failure
reason, untouched rooms, and the mutated (not rolled back) user in place. -/
theorem C3_witness :
    (C3g.attempt_move_impl "user1" "door").2 =
      MoveOutcome.failure "You shall not pass." ∧
    (C3g.attempt_move_impl "user1" "door").1.rooms = C3g.rooms ∧
    (C3g.attempt_move_impl "user1" "door").1.users =
      insertKey C3g.users "user1"
        ⟨"user1", "room1", ⟨5, 7⟩, SpecialAttributes.Civilian 20⟩ ∧
    ((⟨"user1", "room1", ⟨5, 7⟩, SpecialAttributes.Civilian 20⟩ : User).room_name =
        (mkCivilian "user1" "room1").room_name →
      (lookupKey (C3g.attempt_move_impl "user1" "door").1.users "user1").map
          User.room_name = some (mkCivilian "user1" "room1").room_name) :=
  C3_guard_deny_no_rollback C3g "user1" "door" (mkCivilian "user1" "room1")
    ⟨"user1", "room1", ⟨5, 7⟩, SpecialAttributes.Civilian 20⟩
    { name := "room1", description := "blah", exits := [("door", C3path)],
      users := ["user1"] }
    C3path C3deny "You shall not pass." (by decide) rfl rfl rfl rfl rfl

/-- C8: traversing a path guarded by the painful exit condition succeeds
with exactly the warning message, and afterwards the user is stored with
`room_name` equal to the target of the path, hp exactly one lower, and mp,
special attributes and name unchanged. -/
theorem C8_painful_path (g : GameMap) (user_name input : String)
    (user : User) (sroom troom : Room) (path : Path)
    (hne : Path.match_basic_aliases input ≠ "")
    (hu : lookupKey g.users user_name = some user)
    (hr : lookupKey g.rooms user.room_name = some sroom)
    (hp : lookupKey sroom.exits (Path.match_basic_aliases input) = some path)
    (hg : path.exit_cond = some painful_exit_cond)
    (ht : lookupKey g.rooms path.target_room_name = some troom)
    (hlo : -(2 ^ 31) < user.basic_attributes.hp)
    (hhi : user.basic_attributes.hp < 2 ^ 31) :
    (g.attempt_move_impl user_name input).2 =
      MoveOutcome.success ["You passed through, but it hurt you."] ∧
    ∃ u2,
      lookupKey (g.attempt_move_impl user_name input).1.users user_name =
        some u2 ∧
      u2.room_name = path.target_room_name ∧
      u2.basic_attributes.hp = user.basic_attributes.hp - 1 ∧
      u2.basic_attributes.mp = user.basic_attributes.mp ∧
      u2.special_attributes = user.special_attributes ∧
      u2.name = user.name := by
  have hwrap : wrap32 (user.basic_attributes.hp - 1) =
      user.basic_attributes.hp - 1 :=
    wrap32_eq_self _ (by omega) (by omega)
  have hstep : g.attempt_move_impl user_name input =
      GameMap.attempt_move_commit
        ({ g with users := (insertKey g.users user_name
            ({ user with basic_attributes :=
                { user.basic_attributes with
                    hp := wrap32 (user.basic_attributes.hp - 1) } })) })
        user_name user.room_name path.target_room_name
        ["You passed through, but it hurt you."] := by
    simp [GameMap.attempt_move_impl, hne, hu, hr, hp, hg, painful_exit_cond]
  obtain ⟨hsucc, hlook⟩ := attempt_move_commit_success
    ({ g with users := (insertKey g.users user_name
        ({ user with basic_attributes :=
            { user.basic_attributes with
                hp := wrap32 (user.basic_attributes.hp - 1) } })) })
    user_name user.room_name path.target_room_name
    ["You passed through, but it hurt you."] troom sroom
    ({ user with basic_attributes :=
        { user.basic_attributes with
            hp := wrap32 (user.basic_attributes.hp - 1) } })
    ht (lookupKey_insertKey_self _ _ _) hr
  constructor
  · rw [hstep]
    exact hsucc
  · refine ⟨{ ({ user with basic_attributes :=
        { user.basic_attributes with
            hp := wrap32 (user.basic_attributes.hp - 1) } }) with
        room_name := path.target_room_name }, ?_, rfl, ?_, rfl, rfl, rfl⟩
    · rw [hstep]
      exact hlook
    · exact hwrap

/-- C8 witness: a civilian (20 hp) on the painful "spikes" path ends in
room2 with 19 hp, unchanged mp, and the warning message. -/
theorem C8_witness :
    (C8g.attempt_move_impl "user1" "spikes").2 =
      MoveOutcome.success ["You passed through, but it hurt you."] ∧
    ∃ u2,
      lookupKey (C8g.attempt_move_impl "user1" "spikes").1.users "user1" =
        some u2 ∧
      u2.room_name = C8path.target_room_name ∧
      u2.basic_attributes.hp = (mkCivilian "user1" "room1").basic_attributes.hp - 1 ∧
      u2.basic_attributes.mp = (mkCivilian "user1" "room1").basic_attributes.mp ∧
      u2.special_attributes = (mkCivilian "user1" "room1").special_attributes ∧
      u2.name = (mkCivilian "user1" "room1").name :=
  C8_painful_path C8g "user1" "spikes" (mkCivilian "user1" "room1")
    { name := "room1", description := "ouchy", exits := [("spikes", C8path)],
      users := ["user1"] }
    { name := "room2", description := "safe", exits := [], users := [] }
    C8path (by decide) rfl rfl rfl rfl rfl (by decide) (by decide)

/-- C2: for existing distinct rooms A and B with duplicate-free edge
tables, `add_path A B d` for a two-way direction completes without panic
and inserts exactly one edge named `get_path_name d` into A targeting B
and exactly one edge named `get_path_name (get_reverse d)` into B
targeting A, leaving every other room unchanged; for a direction with no
reverse (`CustomOneWay`), only the forward edge is inserted and B is left
entirely unchanged. -/
theorem C2_add_path_graph_symmetry (g : GameMap) (A B : String) (rA rB : Room)
    (hAB : A ≠ B)
    (hA : lookupKey g.rooms A = some rA)
    (hB : lookupKey g.rooms B = some rB)
    (hndA : (rA.exits.map Prod.fst).Nodup)
    (hndB : (rB.exits.map Prod.fst).Nodup)
    (d : Direction)
    (hname : Direction.get_path_name d ≠ "") :
    (∀ dr, Direction.get_reverse d = some dr →
      Direction.get_path_name dr ≠ "" →
      ((g.add_path A B d).2 = none ∧
        lookupKey (g.add_path A B d).1.rooms A =
          some { rA with exits := (insertKey rA.exits (Direction.get_path_name d)
            ⟨B, Direction.get_path_name d, none⟩) } ∧
        lookupKey (g.add_path A B d).1.rooms B =
          some { rB with exits := (insertKey rB.exits (Direction.get_path_name dr)
            ⟨A, Direction.get_path_name dr, none⟩) } ∧
        countKey (insertKey rA.exits (Direction.get_path_name d)
          ⟨B, Direction.get_path_name d, none⟩) (Direction.get_path_name d) = 1 ∧
        countKey (insertKey rB.exits (Direction.get_path_name dr)
          ⟨A, Direction.get_path_name dr, none⟩) (Direction.get_path_name dr) = 1 ∧
        (∀ X, X ≠ A → X ≠ B →
          lookupKey (g.add_path A B d).1.rooms X = lookupKey g.rooms X))) ∧
    (Direction.get_reverse d = none →
      ((g.add_path A B d).2 = none ∧
        lookupKey (g.add_path A B d).1.rooms A =
          some { rA with exits := (insertKey rA.exits (Direction.get_path_name d)
            ⟨B, Direction.get_path_name d, none⟩) } ∧
        countKey (insertKey rA.exits (Direction.get_path_name d)
          ⟨B, Direction.get_path_name d, none⟩) (Direction.get_path_name d) = 1 ∧
        lookupKey (g.add_path A B d).1.rooms B = some rB ∧
        (∀ X, X ≠ A →
          lookupKey (g.add_path A B d).1.rooms X = lookupKey g.rooms X))) := by
  have hBA : B ≠ A := fun hx => hAB (Eq.symm hx)
  have hfwd : g.add_path_impl A B d =
      ({ g with rooms := (insertKey g.rooms A
          ({ rA with exits := (insertKey rA.exits (Direction.get_path_name d)
            ⟨B, Direction.get_path_name d, none⟩) })) }, none) := by
    simp [GameMap.add_path_impl, containsKey, hA, hB, Room.add_exit, Path.new,
      hname]
  constructor
  · intro dr hdr hdrname
    have hA1 : lookupKey (insertKey g.rooms A
        ({ rA with exits := (insertKey rA.exits (Direction.get_path_name d)
          ⟨B, Direction.get_path_name d, none⟩) })) A =
        some { rA with exits := (insertKey rA.exits (Direction.get_path_name d)
          ⟨B, Direction.get_path_name d, none⟩) } :=
      lookupKey_insertKey_self _ _ _
    have hB1 : lookupKey (insertKey g.rooms A
        ({ rA with exits := (insertKey rA.exits (Direction.get_path_name d)
          ⟨B, Direction.get_path_name d, none⟩) })) B = some rB := by
      rw [lookupKey_insertKey_ne _ _ _ _ hBA]
      exact hB
    have hall : g.add_path A B d =
        ({ g with rooms := (insertKey (insertKey g.rooms A
            ({ rA with exits := (insertKey rA.exits (Direction.get_path_name d)
              ⟨B, Direction.get_path_name d, none⟩) })) B
            ({ rB with exits := (insertKey rB.exits (Direction.get_path_name dr)
              ⟨A, Direction.get_path_name dr, none⟩) })) }, none) := by
      simp only [GameMap.add_path, hfwd, hdr]
      simp [GameMap.add_path_impl, containsKey, hA1, hB1, Room.add_exit,
        Path.new, hdrname]
    rw [hall]
    refine ⟨rfl, ?_, ?_, ?_, ?_, ?_⟩
    · rw [lookupKey_insertKey_ne _ _ _ _ hAB]
      exact hA1
    · exact lookupKey_insertKey_self _ _ _
    · exact countKey_insertKey_self _ _ _ hndA
    · exact countKey_insertKey_self _ _ _ hndB
    · intro X hXA hXB
      rw [lookupKey_insertKey_ne _ _ _ _ hXB, lookupKey_insertKey_ne _ _ _ _ hXA]
  · intro hnone
    have hall : g.add_path A B d =
        ({ g with rooms := (insertKey g.rooms A
            ({ rA with exits := (insertKey rA.exits (Direction.get_path_name d)
              ⟨B, Direction.get_path_name d, none⟩) })) }, none) := by
      simp [GameMap.add_path, hfwd, hnone]
    rw [hall]
    refine ⟨rfl, lookupKey_insertKey_self _ _ _,
      countKey_insertKey_self _ _ _ hndA, ?_, ?_⟩
    · rw [lookupKey_insertKey_ne _ _ _ _ hBA]
      exact hB
    · intro X hXA
      rw [lookupKey_insertKey_ne _ _ _ _ hXA]

/-- C2 witness: adding a North path between two fresh rooms yields the
"north" edge in roomA targeting roomB and the "south" edge in roomB
targeting roomA, with no panic. -/
theorem C2_witness :
    (C2g.add_path "roomA" "roomB" Direction.North).2 = none ∧
    lookupKey (C2g.add_path "roomA" "roomB" Direction.North).1.rooms "roomA" =
      some { name := "roomA", description := "a",
             exits := [("north", ⟨"roomB", "north", none⟩)], users := [] } ∧
    lookupKey (C2g.add_path "roomA" "roomB" Direction.North).1.rooms "roomB" =
      some { name := "roomB", description := "b",
             exits := [("south", ⟨"roomA", "south", none⟩)], users := [] } := by
  have h := (C2_add_path_graph_symmetry C2g "roomA" "roomB"
    { name := "roomA", description := "a", exits := [], users := [] }
    { name := "roomB", description := "b", exits := [], users := [] }
    (by decide) rfl rfl (by decide) (by decide) Direction.North
    (by decide)).1 Direction.South rfl (by decide)
  exact ⟨h.1, h.2.1, h.2.2.1⟩

/-- C9: the global action keyword `list_users` dispatches directly to its
handler: the state is unchanged and not marked as a room move, the first
message is the header "Users online:", and the remaining messages are one
"* [name]" entry per known actor in the user table. -/
theorem C9_list_users_global_action (g : GameMap) (user_name : String) :
    g.process_input user_name "list_users" =
      (g, MoveOutcome.success g.list_users, false) ∧
    g.list_users.head? = some "Users online:" ∧
    g.list_users.tail = g.users.map (fun p => "* " ++ p.2.name) ∧
    g.list_users.tail.length = g.users.length := by
  refine ⟨by simp [GameMap.process_input], rfl, rfl, ?_⟩
  simp [GameMap.list_users]

/-- C1: reproduction of the self-loop occupancy bug.  All four public
operations complete without panic (the last as a successful move), yet in
the final state the `room_name` of the user is "roomA" while the occupant
set of "roomA" is empty — the actor is in the occupant set of no room,
violating the
occupancy/location agreement the claim asserts is preserved. -/
theorem C1_selfloop_breaks_occupancy :
    (GameMap.new.create_empty_room "roomA" "a cozy room").2 = none ∧
    (C1g1.add_path "roomA" "roomA" Direction.North).2 = none ∧
    (C1g2.create_user_in_room "user1" "roomA" UserType.Civilian).2 = none ∧
    C1res.2 = MoveOutcome.success [] ∧
    (lookupKey C1res.1.users "user1").map User.room_name = some "roomA" ∧
    (lookupKey C1res.1.rooms "roomA").map Room.users = some [] :=
  ⟨rfl, rfl, rfl, rfl, rfl, rfl⟩

end faerie
